import Mathlib

/-!
Shallow embedding of `etc/poke-pretty-printer.py`, the GDB pretty-printer for
PVM values of GNU poke.

A raw PVM value is one machine word (Python treats it as an unbounded
non-negative integer after `int(self.__val)`, since `pvm_val` is unsigned);
we model it as `Nat`.  The debugger host (GDB) is modelled by a record `Mem`
of read capabilities, one per `gdb.parse_and_eval` cast used by the printer;
each returns `Option`, with `none` standing for `gdb.MemoryError`.
Values yielded back to the host (`gdb.Value` objects) are opaque to the
printer and modelled by the inductive `GdbVal`; entries yielded by a
`children` generator are modelled by `Entry` (the printer always yields the
pair `("", x)`, so only `x` is kept: either a Python string or a gdb value).
A Python exception escaping a call is modelled by `Except.error`.
-/

namespace PokePP

/-- An opaque host (gdb) value as handed back by a `children` generator:
either an integer-valued datum, a typed object produced by
`gdb.parse_and_eval` of a cast at an address, or the array view produced by
`cast_ptr_to_array_of_pvm_val` (a base pointer reinterpreted as an array of
`n` values). -/
inductive GdbVal where
  | num (n : Int)
  | obj (ty : String) (addr : Nat)
  | arrCast (base : GdbVal) (n : Int)
deriving DecidableEq, Repr

/-- One item yielded by a `children` generator: the printers always yield
pairs `("", x)` where `x` is either a Python string or a `gdb.Value`. -/
inductive Entry where
  | s (text : String)
  | v (value : GdbVal)
deriving DecidableEq, Repr

/-- A Python exception class escaping a call. -/
inductive GdbErr where
  | memoryError
  | assertionError
deriving DecidableEq, Repr

/-- `*(pvm_long)ptr`: fields `value` and `size_minus_one` used by the
LONG/ULONG branches. -/
structure PvmLong where
  value : Int
  size_minus_one : Nat
deriving DecidableEq, Repr

/-- The `val` union of a `pvm_type`: the fields accessed by PVMTypPP. -/
structure PvmTypeVal where
  integral : GdbVal
  array : GdbVal
  sct : GdbVal
  off : GdbVal
  cls : GdbVal
deriving DecidableEq, Repr

/-- `*(pvm_type)ptr`: discriminant `code` plus the `val` union. -/
structure PvmType where
  code : Int
  val : PvmTypeVal
deriving DecidableEq, Repr

/-- `*(pvm_cls)ptr`: the fields accessed by the CLS branch. -/
structure PvmCls where
  name : GdbVal
  env : GdbVal
  program : GdbVal
deriving DecidableEq, Repr

/-- `*(pvm_env_)ptr`: the fields accessed by the ENV branch. -/
structure PvmEnv where
  vars : GdbVal
  env_up : GdbVal
deriving DecidableEq, Repr

/-- `*(pvm_iarray)ptr`: the fields accessed by PVMIarPP.  `nallocated` and
`nelem` are integer-valued (the code applies Python `int()` to `nelem`);
`elems` is a pointer-valued gdb value. -/
structure PvmIarray where
  nallocated : Int
  nelem : Int
  elems : GdbVal
deriving DecidableEq, Repr

/-- A `pvm_struct` value: the five fields subscripted by PVMSctPP. -/
structure PvmStruct where
  type : GdbVal
  nfields : GdbVal
  nmethods : GdbVal
  fields : GdbVal
  methods : GdbVal
deriving DecidableEq, Repr

/-- The debugger-side read capability: one field per `gdb.parse_and_eval`
cast the printer performs at a box pointer.  `none` models a raised
`gdb.MemoryError`. -/
structure Mem where
  /-- `*(uintptr_t*)ptr` — the box header word. -/
  readWord : Nat → Option Nat
  /-- `*(pvm_long)ptr` -/
  readLong : Nat → Option PvmLong
  /-- `*(pvm_string)ptr` -/
  readString : Nat → Option GdbVal
  /-- `*(pvm_off)ptr` -/
  readOff : Nat → Option GdbVal
  /-- `*(pvm_array)ptr` -/
  readArray : Nat → Option GdbVal
  /-- `(pvm_struct)ptr` -/
  castStruct : Nat → Option GdbVal
  /-- `*(pvm_type)ptr` -/
  readType : Nat → Option PvmType
  /-- `*(pvm_cls)ptr` -/
  readCls : Nat → Option PvmCls
  /-- `*(pvm_iarray)ptr` -/
  readIarray : Nat → Option PvmIarray
  /-- `*(pvm_env_)ptr` -/
  readEnv : Nat → Option PvmEnv
  /-- `*(pvm_program_)ptr` -/
  readProgram : Nat → Option GdbVal

/-- Python `f"{v:0x}"`: lowercase hexadecimal digits, no prefix, `0 ↦ "0"`. -/
def hexStr (n : Nat) : String :=
  String.mk (Nat.toDigits 16 n)

/-- `v & ~7`: the boxed pointer with the low 3 tag bits cleared
(for a non-negative Python int, `v & -8 = v - v % 8`). -/
def ptrOf (v : Nat) : Nat := v - v % 8

/-- `ival = v >> 32` (line 172/178). -/
def immVal (v : Nat) : Nat := v >>> 32

/-- `ibits = ((v >> 3) & 0x1F) + 1` (line 173/179). -/
def immBits (v : Nat) : Nat := ((v >>> 3) &&& 0x1F) + 1

/-- The dictionary lookup of `PVMValPrettyPrinter._kind` for tag 6:
`{0x2: "LONG", ...}.get(type_code, f"BOX:{type_code}")`. -/
def boxKindName (n : Nat) : String :=
  if n = 0x2 then "LONG"
  else if n = 0x3 then "ULONG"
  else if n = 0x8 then "STR"
  else if n = 0x9 then "OFF"
  else if n = 0xA then "ARR"
  else if n = 0xB then "SCT"
  else if n = 0xC then "TYP"
  else if n = 0xD then "CLS"
  else if n = 0xE then "IAR"
  else if n = 0xF then "ENV"
  else if n = 0x10 then "PRG"
  else "BOX:" ++ toString n

/-- `PVMValPrettyPrinter._kind` (lines 128-159).  The tag-6 branch reads the
box header with NO try/except: a failed read is a raised `gdb.MemoryError`
(`Except.error`). -/
def PVMVal_kind (mem : Mem) (v : Nat) : Except GdbErr String :=
  let tag := v % 8
  if tag = 0 then Except.ok "INT"
  else if tag = 1 then Except.ok "UINT"
  else if tag = 6 then
    match mem.readWord (ptrOf v) with
    | none => Except.error GdbErr.memoryError
    | some type_code => Except.ok (boxKindName type_code)
  else if tag = 7 then
    Except.ok
      (if v = 0x7 then "PVM_NULL"
       else if v = 0x17 then "GC:INVALID_OBJECT"
       else if v = 0x27 then "GC:UNINITIALIZED_OBJECT"
       else if v = 0x37 then "GC:BROKEN_HEART"
       else "Garbage(NULL):0x" ++ hexStr v)
  else Except.ok ("Garbage:0x" ++ hexStr v)

/-- The tuple tested by `PVMValPrettyPrinter.display_hint` (line 163). -/
def hintKinds : List String :=
  ["ARR", "SCT", "TYP", "CLS", "IAR", "ENV", "PRG", "STR"]

/-- `PVMValPrettyPrinter.display_hint` (lines 161-165): calls `_kind` (so a
`gdb.MemoryError` raised there propagates) and returns `"map"` for the kinds
in `hintKinds`, `"array"` otherwise. -/
def PVMVal_display_hint (mem : Mem) (v : Nat) : Except GdbErr String :=
  match PVMVal_kind mem v with
  | Except.error e => Except.error e
  | Except.ok k => Except.ok (if k ∈ hintKinds then "map" else "array")

/-- `PVMSctPP.children` iterates over this tuple (line 14). -/
def sctFieldNames : List String :=
  ["type", "nfields", "nmethods", "fields", "methods"]

/-- Python subscript `sct[f]`; the loop only invokes it on the five names of
`sctFieldNames`. -/
def sctField (s : PvmStruct) (f : String) : GdbVal :=
  if f = "type" then s.type
  else if f = "nfields" then s.nfields
  else if f = "nmethods" then s.nmethods
  else if f = "fields" then s.fields
  else s.methods

/-- `PVMSctPP.children` (lines 11-16): for each field name, yield the label
then the field value. -/
def PVMSctPP_children (s : PvmStruct) : List Entry :=
  sctFieldNames.flatMap fun f => [Entry.s f, Entry.v (sctField s f)]

/-- `PVMSctPP.display_hint` (lines 18-19). -/
def PVMSctPP_display_hint (_s : PvmStruct) : String := "map"

/-- `PVMTypPP.children` (lines 26-52): dispatch on the `code` discriminant;
each taken branch yields a label and (for payload-carrying codes) the
corresponding `val` field. -/
def PVMTypPP_children (t : PvmType) : List Entry :=
  if t.code = 0 then [Entry.s "integral", Entry.v t.val.integral]
  else if t.code = 1 then [Entry.s "string"]
  else if t.code = 2 then [Entry.s "array", Entry.v t.val.array]
  else if t.code = 3 then [Entry.s "sct", Entry.v t.val.sct]
  else if t.code = 4 then [Entry.s "off", Entry.v t.val.off]
  else if t.code = 5 then [Entry.s "cls", Entry.v t.val.cls]
  else if t.code = 6 then [Entry.s "void"]
  else [Entry.s "InvalidType"]

/-- `cast_ptr_to_array_of_pvm_val` (lines 93-96): `assert n > 0`, then cast
the pointer to an `n`-element array and dereference.  `none` models the
`AssertionError` raised when `n ≤ 0`. -/
def cast_ptr_to_array_of_pvm_val (pvm_val_ptr : GdbVal) (n : Int) :
    Option GdbVal :=
  if 0 < n then some (GdbVal.arrCast pvm_val_ptr n) else none

/-- `PVMIarPP.children` (lines 106-118): yield `nallocated` and `nelem`,
then — only when `nelem` is truthy (non-zero) — the `elems` entry obtained
through the cast helper.  `none` models the `AssertionError` propagating. -/
def PVMIarPP_children (iar : PvmIarray) : Option (List Entry) :=
  let base := [Entry.s "nallocated", Entry.v (GdbVal.num iar.nallocated),
               Entry.s "nelem", Entry.v (GdbVal.num iar.nelem)]
  if iar.nelem ≠ 0 then
    match cast_ptr_to_array_of_pvm_val iar.elems iar.nelem with
    | none => none
    | some a => some (base ++ [Entry.s "elems", Entry.v a])
  else some base

/-- `PVMIarPP.display_hint` (lines 120-121). -/
def PVMIarPP_display_hint (_iar : PvmIarray) : String := "map"

/-- The `type_code` local of `PVMValPrettyPrinter.children`: an `int` when
the guarded header read succeeds, and the string `f"BadPtr(0x{ptr:0x})"`
when `gdb.MemoryError` was caught (lines 185-188). -/
inductive TypeCode where
  | num (n : Nat)
  | badPtr (text : String)
deriving DecidableEq, Repr

/-- The integer content of `type_code`, if any: a Python `==` comparison of
the `BadPtr` string against an int literal is always false, so each `elif`
compares against `some k`. -/
def tcNum : TypeCode → Option Nat
  | TypeCode.num n => some n
  | TypeCode.badPtr _ => none

/-- Rendering of `type_code` inside `f"BOXED({type_code})>"`: a Python int
prints in decimal, the `BadPtr` string prints as itself. -/
def typeCodeRepr : TypeCode → String
  | TypeCode.num n => toString n
  | TypeCode.badPtr text => text

/-- The tag-6 block of `PVMValPrettyPrinter.children` (lines 183-253).
Only the header read is guarded by try/except; every later
`gdb.parse_and_eval` is unguarded, so its failure is `Except.error`. -/
def boxChildren (mem : Mem) (ptr : Nat) : Except GdbErr (List Entry) :=
  let tc : TypeCode :=
    match mem.readWord ptr with
    | some w => TypeCode.num w
    | none => TypeCode.badPtr ("BadPtr(0x" ++ hexStr ptr ++ ")")
  if tcNum tc = some 0x2 then
    match mem.readLong ptr with
    | none => Except.error GdbErr.memoryError
    | some long => Except.ok
        [Entry.s (toString long.value ++ " as long<" ++
                  toString (long.size_minus_one + 1) ++ ">")]
  else if tcNum tc = some 0x3 then
    match mem.readLong ptr with
    | none => Except.error GdbErr.memoryError
    | some long => Except.ok
        [Entry.s (toString long.value ++ " as ulong<" ++
                  toString (long.size_minus_one + 1) ++ ">")]
  else if tcNum tc = some 0x8 then
    match mem.readString ptr with
    | none => Except.error GdbErr.memoryError
    | some sv => Except.ok [Entry.s "string", Entry.v sv]
  else if tcNum tc = some 0x9 then
    match mem.readOff ptr with
    | none => Except.error GdbErr.memoryError
    | some ov => Except.ok [Entry.s "off", Entry.v ov]
  else if tcNum tc = some 0xA then
    match mem.readArray ptr with
    | none => Except.error GdbErr.memoryError
    | some av => Except.ok [Entry.s "array", Entry.v av]
  else if tcNum tc = some 0xB then
    match mem.castStruct ptr with
    | none => Except.error GdbErr.memoryError
    | some sv => Except.ok [Entry.s "struct", Entry.v sv]
  else if tcNum tc = some 0xC then
    match mem.readType ptr with
    | none => Except.error GdbErr.memoryError
    | some t => Except.ok (PVMTypPP_children t)
  else if tcNum tc = some 0xD then
    match mem.readCls ptr with
    | none => Except.error GdbErr.memoryError
    | some cls => Except.ok
        [Entry.s "name", Entry.v cls.name,
         Entry.s "env", Entry.v cls.env,
         Entry.s "program", Entry.v cls.program]
  else if tcNum tc = some 0xE then
    match mem.readIarray ptr with
    | none => Except.error GdbErr.memoryError
    | some iar =>
      match PVMIarPP_children iar with
      | none => Except.error GdbErr.assertionError
      | some es => Except.ok es
  else if tcNum tc = some 0xF then
    match mem.readEnv ptr with
    | none => Except.error GdbErr.memoryError
    | some env => Except.ok
        [Entry.s "vars", Entry.v env.vars,
         Entry.s "env_up", Entry.v env.env_up]
  else if tcNum tc = some 0x10 then
    match mem.readProgram ptr with
    | none => Except.error GdbErr.memoryError
    | some prg => Except.ok [Entry.s "program", Entry.v prg]
  else
    Except.ok [Entry.s ("BOXED(" ++ typeCodeRepr tc ++ ")>")]

/-- `PVMValPrettyPrinter.children` (lines 167-269). -/
def PVMVal_children (mem : Mem) (v : Nat) : Except GdbErr (List Entry) :=
  let tag := v % 8
  if tag = 0 then
    Except.ok [Entry.s (toString (immVal v) ++ " as int<" ++
                        toString (immBits v) ++ ">")]
  else if tag = 1 then
    Except.ok [Entry.s (toString (immVal v) ++ " as uint<" ++
                        toString (immBits v) ++ ">")]
  else if tag = 6 then
    boxChildren mem (ptrOf v)
  else if tag = 7 then
    if v = 0x7 then Except.ok [Entry.s "PMV_NULL"]
    else if v = 0x17 then Except.ok [Entry.s "GC:INVALID_OBJECT"]
    else if v = 0x27 then Except.ok [Entry.s "GC:UNINITIALIZED_OBJECT"]
    else if v = 0x37 then Except.ok [Entry.s "GC:BROKEN_HEART"]
    else Except.ok [Entry.s ("Garbage(NULL):0x" ++ hexStr v)]
  else Except.ok [Entry.s ("Garbage:0x" ++ hexStr v)]

/-- The five outcome kinds of the first-level tag classification. -/
inductive TagClass where
  | immInt
  | immUint
  | boxed (ptr : Nat)
  | sentinel (name : String)
  | garbage (w : Nat)
deriving DecidableEq, Repr

/-- The first-level tag dispatch shared by `_kind` and `children`
(`tag = v & 7`; tag 0 → signed immediate, 1 → unsigned immediate,
6 → boxed reference `v & ~7`, 7 → one of the four sentinel constants or
garbage, anything else → garbage).  This is the pure classification the
printer performs before any memory access. -/
def classify (v : Nat) : TagClass :=
  let tag := v % 8
  if tag = 0 then TagClass.immInt
  else if tag = 1 then TagClass.immUint
  else if tag = 6 then TagClass.boxed (ptrOf v)
  else if tag = 7 then
    if v = 0x7 then TagClass.sentinel "PVM_NULL"
    else if v = 0x17 then TagClass.sentinel "GC:INVALID_OBJECT"
    else if v = 0x27 then TagClass.sentinel "GC:UNINITIALIZED_OBJECT"
    else if v = 0x37 then TagClass.sentinel "GC:BROKEN_HEART"
    else TagClass.garbage v
  else TagClass.garbage v

/-- Modelled from the spec (claim C2): the immediate layout used for the
round-trip — tag `0` in the low 3 bits, `w - 1` in bits 3..7, the payload
`v` as a 32-bit two's-complement quantity in bits 32 and up.  For
`1 ≤ w ≤ 32` this arithmetic form places each field in exactly those bits. -/
def encodeSignedImm (v : Int) (w : Nat) : Nat :=
  (v % (2 : Int) ^ 32).toNat * 2 ^ 32 + (w - 1) * 8

/-- The entry list a `children` call hands to the host (empty when an
exception escaped instead). -/
def presentEntries (mem : Mem) (v : Nat) : List Entry :=
  match PVMVal_children mem v with
  | Except.ok es => es
  | Except.error _ => []

/-- An entry that is not part of a variant's fixed label/value pattern:
a string entry other than the given field labels.  A synthetic marker
(truncation marker, truncated node) would have to appear as such an entry. -/
def isSyntheticEntry (labels : List String) : Entry → Bool
  | Entry.s text => decide (text ∉ labels)
  | Entry.v _ => false

/-- Whether an entry list contains any synthetic (non-pattern) entry. -/
def hasSyntheticEntry (labels : List String) (es : List Entry) : Bool :=
  es.any (isSyntheticEntry labels)

/-- How many element values an entry displays: the array view produced by
`cast_ptr_to_array_of_pvm_val` displays its `n` elements, every other entry
displays none. -/
def entryElemCount : Entry → Int
  | Entry.v (GdbVal.arrCast _ n) => n
  | _ => 0

/-- Total number of element values displayed by an entry list. -/
def shownElemCount (es : List Entry) : Int :=
  (es.map entryElemCount).sum

/-- The entries of `PVMIarPP.children` (empty when the assertion fired). -/
def iarEntries (iar : PvmIarray) : List Entry :=
  (PVMIarPP_children iar).getD []

/-- Number of incremental-array element values actually shown. -/
def iarShownCount (iar : PvmIarray) : Int :=
  shownElemCount (iarEntries iar)

/-- A memory in which every read fails. -/
def memNone : Mem where
  readWord := fun _ => none
  readLong := fun _ => none
  readString := fun _ => none
  readOff := fun _ => none
  readArray := fun _ => none
  castStruct := fun _ => none
  readType := fun _ => none
  readCls := fun _ => none
  readIarray := fun _ => none
  readEnv := fun _ => none
  readProgram := fun _ => none

/-- A memory holding one boxed Offset object: header word `0x9` at `0x100`. -/
def memOff : Mem :=
  { memNone with
    readWord := fun p => if p = 0x100 then some 0x9 else none
    readOff := fun p => if p = 0x100 then some (GdbVal.obj "pvm_off" 0x100)
                        else none }

/-- A memory holding one boxed object with the unknown header `0x2A` (42)
at `0x100`. -/
def memUnknownBox : Mem :=
  { memNone with
    readWord := fun p => if p = 0x100 then some 0x2A else none }

/-- A memory holding one boxed Struct object: header word `0xB` at `0x100`. -/
def memStruct : Mem :=
  { memNone with
    readWord := fun p => if p = 0x100 then some 0xB else none
    castStruct := fun p => if p = 0x100 then
                             some (GdbVal.obj "pvm_struct" 0x100)
                           else none }

/-- A heap containing an Environment parent chain of `d + 1` frames: frame
`k` (for `k = 0..d`) lives at `0x100 * (k + 1)` with header word `0xF`, an
empty `vars` slot and an `env_up` pointer to frame `k + 1` (null for the
last frame). -/
def chainMem (d : Nat) : Mem :=
  { memNone with
    readWord := fun p =>
      if p % 0x100 = 0 ∧ 1 ≤ p / 0x100 ∧ p / 0x100 ≤ d + 1 then some 0xF
      else none
    readEnv := fun p =>
      if p % 0x100 = 0 ∧ 1 ≤ p / 0x100 ∧ p / 0x100 ≤ d + 1 then
        some { vars := GdbVal.num 0,
               env_up := GdbVal.obj "pvm_env_ *"
                           (if p / 0x100 ≤ d then p + 0x100 else 0) }
      else none }

/-- An incremental array whose `nallocated` and `nelem` are both `n`. -/
def mkIar (n : Int) : PvmIarray :=
  { nallocated := n, nelem := n, elems := GdbVal.obj "pvm_val *" 0x500 }

/-- C1: tag classification is total — for every raw machine word the
first-level dispatch `classify` (the pure tag test shared by `_kind` and
`children`, performed before any memory access) yields exactly one of the
five outcome kinds: tag 0 → signed immediate, tag 1 → unsigned immediate,
tag 6 → boxed reference on the tag-cleared pointer, tag 7 with one of the
four known constants → sentinel, and everything else (unknown tag-7 words
and the impossible tags 2..5) → Garbage carrying the raw word.  `classify`
is a total computable function, so no case is unmatched and no error is
raised; the conjuncts also tie each outcome to the string `_kind` reports. -/
theorem C1_tag_classification_total (mem : Mem) (v : Nat) (hv : v < 2 ^ 64) :
    (v % 8 = 0 → classify v = TagClass.immInt ∧
        PVMVal_kind mem v = Except.ok "INT") ∧
    (v % 8 = 1 → classify v = TagClass.immUint ∧
        PVMVal_kind mem v = Except.ok "UINT") ∧
    (v % 8 = 6 → classify v = TagClass.boxed (ptrOf v)) ∧
    ((v = 0x7 ∨ v = 0x17 ∨ v = 0x27 ∨ v = 0x37) →
        ∃ name, classify v = TagClass.sentinel name) ∧
    (v % 8 = 7 → v ≠ 0x7 → v ≠ 0x17 → v ≠ 0x27 → v ≠ 0x37 →
        classify v = TagClass.garbage v ∧
        PVMVal_kind mem v = Except.ok ("Garbage(NULL):0x" ++ hexStr v)) ∧
    (v % 8 = 2 ∨ v % 8 = 3 ∨ v % 8 = 4 ∨ v % 8 = 5 →
        classify v = TagClass.garbage v ∧
        PVMVal_kind mem v = Except.ok ("Garbage:0x" ++ hexStr v)) := by
  refine ⟨fun h => ?_, fun h => ?_, fun h => ?_, fun h => ?_,
    fun h h7 h17 h27 h37 => ?_, fun h => ?_⟩
  · simp [classify, PVMVal_kind, h]
  · simp [classify, PVMVal_kind, h]
  · simp [classify, h]
  · rcases h with h | h | h | h <;> subst h
    · exact ⟨"PVM_NULL", rfl⟩
    · exact ⟨"GC:INVALID_OBJECT", rfl⟩
    · exact ⟨"GC:UNINITIALIZED_OBJECT", rfl⟩
    · exact ⟨"GC:BROKEN_HEART", rfl⟩
  · simp [classify, PVMVal_kind, h, h7, h17, h27, h37]
  · rcases h with h | h | h | h <;> simp [classify, PVMVal_kind, h]

/-- Witness for C1: the bound and two branches discharged at the concrete
words `0x37` (a known sentinel) and `0x2` (an impossible tag). -/
theorem C1_witness :
    (0x37 : Nat) < 2 ^ 64 ∧
    (∃ name, classify 0x37 = TagClass.sentinel name) ∧
    PVMVal_kind memNone 0x2 = Except.ok ("Garbage:0x" ++ hexStr 0x2) := by
  refine ⟨by norm_num, ?_, ?_⟩
  · exact (C1_tag_classification_total memNone 0x37 (by norm_num)).2.2.2.1
      (Or.inr (Or.inr (Or.inr rfl)))
  · exact ((C1_tag_classification_total memNone 0x2 (by norm_num)).2.2.2.2.2
      (Or.inl (by decide))).2

/-- C5: each of the four exact tag-7 sentinel constants decodes to the
corresponding sentinel node — a single scalar summary entry — and the
result is the same for every memory, i.e. no dereference is performed (in
particular `0x37` presents `GC:BROKEN_HEART` and no variant fields); every
other tag-7 word is classified Garbage carrying only its raw hex value. -/
theorem C5_sentinels (mem : Mem) :
    (PVMVal_kind mem 0x7 = Except.ok "PVM_NULL" ∧
     PVMVal_children mem 0x7 = Except.ok [Entry.s "PMV_NULL"]) ∧
    (PVMVal_kind mem 0x17 = Except.ok "GC:INVALID_OBJECT" ∧
     PVMVal_children mem 0x17 = Except.ok [Entry.s "GC:INVALID_OBJECT"]) ∧
    (PVMVal_kind mem 0x27 = Except.ok "GC:UNINITIALIZED_OBJECT" ∧
     PVMVal_children mem 0x27 = Except.ok [Entry.s "GC:UNINITIALIZED_OBJECT"]) ∧
    (PVMVal_kind mem 0x37 = Except.ok "GC:BROKEN_HEART" ∧
     PVMVal_children mem 0x37 = Except.ok [Entry.s "GC:BROKEN_HEART"]) ∧
    (∀ v : Nat, v % 8 = 7 → v ≠ 0x7 → v ≠ 0x17 → v ≠ 0x27 → v ≠ 0x37 →
      PVMVal_kind mem v = Except.ok ("Garbage(NULL):0x" ++ hexStr v) ∧
      PVMVal_children mem v = Except.ok [Entry.s ("Garbage(NULL):0x" ++ hexStr v)]) := by
  refine ⟨⟨rfl, rfl⟩, ⟨rfl, rfl⟩, ⟨rfl, rfl⟩, ⟨rfl, rfl⟩, ?_⟩
  intro v h h7 h17 h27 h37
  constructor
  · simp [PVMVal_kind, h, h7, h17, h27, h37]
  · simp [PVMVal_children, h, h7, h17, h27, h37]

/-- Witness for C5: the unknown tag-7 word `0x47` classifies as Garbage
with its raw hexadecimal value. -/
theorem C5_witness :
    ((0x47 : Nat) % 8 = 7 ∧ (0x47 : Nat) ≠ 0x37) ∧
    PVMVal_children memNone 0x47 =
      Except.ok [Entry.s ("Garbage(NULL):0x" ++ hexStr 0x47)] :=
  ⟨⟨by decide, by decide⟩,
   ((C5_sentinels memNone).2.2.2.2 0x47 (by decide) (by decide) (by decide)
      (by decide) (by decide)).2⟩

/-- C6: a boxed reference whose readable header word is not one of the
legal type codes `{0x2,0x3,0x8,0x9,0xA,0xB,0xC,0xD,0xE,0xF,0x10}` decodes
to the labeled opaque placeholder `BOXED(code)>` carrying the raw header
code (printed in decimal), reading no variant fields and raising nothing;
`_kind` likewise reports `BOX:code`. -/
theorem C6_unknown_box (mem : Mem) (v code : Nat) (htag : v % 8 = 6)
    (hread : mem.readWord (ptrOf v) = some code)
    (hnot : code ∉ [0x2, 0x3, 0x8, 0x9, 0xA, 0xB, 0xC, 0xD, 0xE, 0xF, 0x10]) :
    PVMVal_children mem v =
      Except.ok [Entry.s ("BOXED(" ++ toString code ++ ")>")] ∧
    PVMVal_kind mem v = Except.ok ("BOX:" ++ toString code) := by
  simp only [List.mem_cons, List.not_mem_nil, or_false, not_or] at hnot
  obtain ⟨h2, h3, h8, h9, hA, hB, hC, hD, hE, hF, h10⟩ := hnot
  constructor
  · simp [PVMVal_children, htag, boxChildren, hread, tcNum, typeCodeRepr,
      h2, h3, h8, h9, hA, hB, hC, hD, hE, hF, h10]
  · simp [PVMVal_kind, htag, hread, boxKindName,
      h2, h3, h8, h9, hA, hB, hC, hD, hE, hF, h10]

/-- Witness for C6: header word `0x2A` (= 42) at the boxed word `0x106`
yields the placeholder `BOXED(42)>`. -/
theorem C6_witness :
    ((0x106 : Nat) % 8 = 6 ∧
     memUnknownBox.readWord (ptrOf 0x106) = some 0x2A ∧
     (0x2A : Nat) ∉ [0x2, 0x3, 0x8, 0x9, 0xA, 0xB, 0xC, 0xD, 0xE, 0xF, 0x10]) ∧
    PVMVal_children memUnknownBox 0x106 =
      Except.ok [Entry.s ("BOXED(" ++ toString (0x2A : Nat) ++ ")>")] ∧
    ("BOXED(" ++ toString (0x2A : Nat) ++ ")>") = "BOXED(42)>" :=
  ⟨⟨by decide, rfl, by decide⟩,
   (C6_unknown_box memUnknownBox 0x106 0x2A (by decide) rfl (by decide)).1,
   by decide⟩

/-- C3 (code bug): when the boxed header word cannot be read, the
`children` path catches `gdb.MemoryError` and recovers with the labeled
`BOXED(BadPtr(0x…))>` placeholder — but the display-hint path is NOT
recovered: `_kind` performs the same header read with no try/except, so
`display_hint` propagates the `gdb.MemoryError` out of the presentation
call, contradicting the claim that every dereferencing code path recovers
locally. -/
theorem C3_badptr_paths (mem : Mem) (v : Nat) (htag : v % 8 = 6)
    (hread : mem.readWord (ptrOf v) = none) :
    PVMVal_children mem v =
      Except.ok [Entry.s ("BOXED(" ++ ("BadPtr(0x" ++ hexStr (ptrOf v) ++ ")")
                          ++ ")>")] ∧
    PVMVal_kind mem v = Except.error GdbErr.memoryError ∧
    PVMVal_display_hint mem v = Except.error GdbErr.memoryError := by
  have h1 : PVMVal_kind mem v = Except.error GdbErr.memoryError := by
    simp [PVMVal_kind, htag, hread]
  refine ⟨?_, h1, ?_⟩
  · simp [PVMVal_children, htag, boxChildren, hread, tcNum, typeCodeRepr]
  · simp [PVMVal_display_hint, h1]

/-- Witness for C3: the boxed word `0x106` over a memory where every read
fails — `children` recovers with the placeholder while `_kind` raises. -/
theorem C3_witness :
    ((0x106 : Nat) % 8 = 6 ∧ memNone.readWord (ptrOf 0x106) = none) ∧
    PVMVal_kind memNone 0x106 = Except.error GdbErr.memoryError ∧
    PVMVal_children memNone 0x106 =
      Except.ok [Entry.s "BOXED(BadPtr(0x100))>"] :=
  ⟨⟨by decide, rfl⟩,
   (C3_badptr_paths memNone 0x106 (by decide) rfl).2.1,
   rfl⟩

/-- C4 counterexample: a decoded Offset (boxed header `0x9`) must yield the
Mapping hint (`"map"` in gdb's display-hint contract) per the claim, but
`display_hint` returns `"array"` (the Sequence hint): `"OFF"` is missing
from the tuple tested at line 163.  (Immediates, sentinels and garbage
likewise get `"array"`, never a Scalar hint, and Array/IncrementalArray/
Program get `"map"`.) -/
theorem C4_counterexample :
    PVMVal_kind memOff 0x106 = Except.ok "OFF" ∧
    PVMVal_display_hint memOff 0x106 = Except.ok "array" ∧
    ("array" : String) ≠ "map" :=
  ⟨rfl, rfl, by decide⟩

/-- C4 as amended: the hint is `"map"` exactly for the kinds in
`hintKinds` = {ARR, SCT, TYP, CLS, IAR, ENV, PRG, STR} and `"array"` for
every other kind (immediates, Long/ULong, Offset, sentinels, Garbage,
unknown box types); a Scalar hint is never produced.  In particular Array
and IncrementalArray get Mapping (not Sequence), Offset gets Sequence (not
Mapping), and Program gets Mapping (not Scalar). -/
theorem C4_hint_amended (mem : Mem) (v : Nat) (k : String)
    (hk : PVMVal_kind mem v = Except.ok k) :
    PVMVal_display_hint mem v =
      Except.ok (if k ∈ hintKinds then "map" else "array") ∧
    (PVMVal_display_hint mem v = Except.ok "map" ∨
     PVMVal_display_hint mem v = Except.ok "array") ∧
    ("ARR" ∈ hintKinds ∧ "IAR" ∈ hintKinds ∧ "PRG" ∈ hintKinds ∧
     "OFF" ∉ hintKinds ∧ "INT" ∉ hintKinds ∧ "UINT" ∉ hintKinds ∧
     "LONG" ∉ hintKinds ∧ "ULONG" ∉ hintKinds) := by
  have h1 : PVMVal_display_hint mem v =
      Except.ok (if k ∈ hintKinds then "map" else "array") := by
    simp [PVMVal_display_hint, hk]
  refine ⟨h1, ?_, by decide⟩
  rw [h1]
  by_cases hmem : k ∈ hintKinds
  · exact Or.inl (by rw [if_pos hmem])
  · exact Or.inr (by rw [if_neg hmem])

/-- Witness for C4: the Offset kind, whose hint evaluates to `"array"`. -/
theorem C4_witness :
    PVMVal_kind memOff 0x106 = Except.ok "OFF" ∧
    PVMVal_display_hint memOff 0x106 =
      Except.ok (if "OFF" ∈ hintKinds then "map" else "array") :=
  ⟨rfl, (C4_hint_amended memOff 0x106 "OFF" rfl).1⟩

/-- C9: a boxed Struct value (header `0xB`) is presented through the struct
sub-printer: the top-level `children` yields the struct object, and
`PVMSctPP.children` yields the field labels exactly in the order
`type, nfields, nmethods, fields, methods`, each label immediately followed
by the corresponding field value, with the Mapping (`"map"`) hint. -/
theorem C9_struct_mapping (mem : Mem) (v : Nat) (sv : GdbVal) (s : PvmStruct)
    (htag : v % 8 = 6) (hread : mem.readWord (ptrOf v) = some 0xB)
    (hcast : mem.castStruct (ptrOf v) = some sv) :
    PVMVal_children mem v = Except.ok [Entry.s "struct", Entry.v sv] ∧
    PVMSctPP_children s =
      [Entry.s "type", Entry.v s.type,
       Entry.s "nfields", Entry.v s.nfields,
       Entry.s "nmethods", Entry.v s.nmethods,
       Entry.s "fields", Entry.v s.fields,
       Entry.s "methods", Entry.v s.methods] ∧
    PVMSctPP_display_hint s = "map" := by
  refine ⟨?_, rfl, rfl⟩
  simp [PVMVal_children, htag, boxChildren, hread, tcNum, hcast]

/-- Witness for C9: a struct with `nfields = 2` and two immediate field
values, boxed behind header `0xB`. -/
theorem C9_witness :
    ((0x106 : Nat) % 8 = 6 ∧
     memStruct.readWord (ptrOf 0x106) = some 0xB ∧
     memStruct.castStruct (ptrOf 0x106) = some (GdbVal.obj "pvm_struct" 0x100)) ∧
    PVMVal_children memStruct 0x106 =
      Except.ok [Entry.s "struct", Entry.v (GdbVal.obj "pvm_struct" 0x100)] ∧
    PVMSctPP_children
        { type := GdbVal.obj "pvm_val" 0x200, nfields := GdbVal.num 2,
          nmethods := GdbVal.num 0, fields := GdbVal.obj "pvm_val" 0x300,
          methods := GdbVal.obj "pvm_val" 0x308 } =
      [Entry.s "type", Entry.v (GdbVal.obj "pvm_val" 0x200),
       Entry.s "nfields", Entry.v (GdbVal.num 2),
       Entry.s "nmethods", Entry.v (GdbVal.num 0),
       Entry.s "fields", Entry.v (GdbVal.obj "pvm_val" 0x300),
       Entry.s "methods", Entry.v (GdbVal.obj "pvm_val" 0x308)] := by
  have h := C9_struct_mapping memStruct 0x106 (GdbVal.obj "pvm_struct" 0x100)
    { type := GdbVal.obj "pvm_val" 0x200, nfields := GdbVal.num 2,
      nmethods := GdbVal.num 0, fields := GdbVal.obj "pvm_val" 0x300,
      methods := GdbVal.obj "pvm_val" 0x308 }
    (by decide) rfl rfl
  exact ⟨⟨by decide, rfl, rfl⟩, h.1, h.2.1⟩

/-- C10: an IncrementalArray with `nelem = 0` presents exactly the
`nallocated` and `nelem` entries — no `elems` entry and no synthetic entry
at all — so `cast_ptr_to_array_of_pvm_val` (whose `assert n > 0` fails,
i.e. returns `none`, whenever it is reached with a non-positive count) is
never invoked from this caller and no `AssertionError` can arise. -/
theorem C10_iar_empty (iar : PvmIarray) (h : iar.nelem = 0) :
    PVMIarPP_children iar = some
      [Entry.s "nallocated", Entry.v (GdbVal.num iar.nallocated),
       Entry.s "nelem", Entry.v (GdbVal.num iar.nelem)] ∧
    hasSyntheticEntry ["nallocated", "nelem"] (iarEntries iar) = false ∧
    (∀ p n, n ≤ 0 → cast_ptr_to_array_of_pvm_val p n = none) := by
  refine ⟨?_, ?_, ?_⟩
  · simp [PVMIarPP_children, h]
  · simp [iarEntries, PVMIarPP_children, h, hasSyntheticEntry, isSyntheticEntry]
  · intro p n hn
    rw [cast_ptr_to_array_of_pvm_val, if_neg (by omega)]

/-- Witness for C10: `nallocated = 10, nelem = 0`. -/
theorem C10_witness :
    (({ nallocated := 10, nelem := 0,
        elems := GdbVal.obj "pvm_val *" 0x500 } : PvmIarray).nelem = 0) ∧
    PVMIarPP_children
        { nallocated := 10, nelem := 0, elems := GdbVal.obj "pvm_val *" 0x500 } =
      some [Entry.s "nallocated", Entry.v (GdbVal.num 10),
            Entry.s "nelem", Entry.v (GdbVal.num 0)] :=
  ⟨rfl, (C10_iar_empty
    { nallocated := 10, nelem := 0, elems := GdbVal.obj "pvm_val *" 0x500 }
    rfl).1⟩

/-- C7 counterexample: there is NO presentation limit — for every candidate
limit `L` the claim "exactly `min(nelem, L)` elements are shown, with a
trailing truncation marker exactly when `nelem > L`" fails, because
`PVMIarPP.children` always shows all `nelem` elements (one array cast of
the full element count) and never emits any marker entry: an array with
`nelem = L + 1` shows `L + 1` elements, not `min(L + 1, L) = L`. -/
theorem C7_counterexample :
    ¬ ∃ L : Nat, ∀ iar : PvmIarray, 0 ≤ iar.nelem →
        iarShownCount iar = min iar.nelem (L : Int) ∧
        (hasSyntheticEntry ["nallocated", "nelem", "elems"] (iarEntries iar)
            = true ↔ (L : Int) < iar.nelem) := by
  rintro ⟨L, hL⟩
  have hne : ((L : Int) + 1) ≠ 0 := by omega
  have hpos : (0 : Int) < (L : Int) + 1 := by omega
  have hc : iarShownCount (mkIar ((L : Int) + 1)) = (L : Int) + 1 := by
    simp [iarShownCount, iarEntries, PVMIarPP_children, mkIar,
      cast_ptr_to_array_of_pvm_val, shownElemCount, entryElemCount, hne, hpos]
  have h0 : (0 : Int) ≤ (mkIar ((L : Int) + 1)).nelem := by
    show (0 : Int) ≤ (L : Int) + 1
    omega
  have h := (hL (mkIar ((L : Int) + 1)) h0).1
  rw [hc] at h
  have hfield : (mkIar ((L : Int) + 1)).nelem = (L : Int) + 1 := rfl
  rw [hfield] at h
  omega

/-- C7 as amended: for every IncrementalArray with positive `nelem` the
children are exactly `nallocated`, `nelem` and one `elems` entry carrying
ALL `nelem` element values; the number of elements shown is `nelem`
(unbounded by any presentation limit) and no truncation marker ever
appears. -/
theorem C7_iar_amended (iar : PvmIarray) (h : 0 < iar.nelem) :
    PVMIarPP_children iar = some
      [Entry.s "nallocated", Entry.v (GdbVal.num iar.nallocated),
       Entry.s "nelem", Entry.v (GdbVal.num iar.nelem),
       Entry.s "elems", Entry.v (GdbVal.arrCast iar.elems iar.nelem)] ∧
    iarShownCount iar = iar.nelem ∧
    hasSyntheticEntry ["nallocated", "nelem", "elems"] (iarEntries iar)
      = false := by
  have hne : iar.nelem ≠ 0 := by omega
  refine ⟨?_, ?_, ?_⟩ <;>
    simp [PVMIarPP_children, iarShownCount, iarEntries, shownElemCount,
      entryElemCount, cast_ptr_to_array_of_pvm_val, hasSyntheticEntry,
      isSyntheticEntry, hne, h]

/-- Witness for C7 (the spec's own scenario, `nallocated = 10, nelem = 8`):
all 8 elements are shown. -/
theorem C7_witness :
    ((0 : Int) < ((⟨10, 8, GdbVal.obj "pvm_val *" 0x500⟩ : PvmIarray)).nelem) ∧
    iarShownCount (⟨10, 8, GdbVal.obj "pvm_val *" 0x500⟩ : PvmIarray) = 8 :=
  ⟨by norm_num,
   (C7_iar_amended (⟨10, 8, GdbVal.obj "pvm_val *" 0x500⟩ : PvmIarray)
     (by norm_num)).2.1⟩

/-- Presentation of the root of a `chainMem d` environment chain: the
Environment decoder takes no depth parameter and always yields exactly the
`vars` and `env_up` entries. -/
theorem chain_children_eq (d : Nat) :
    PVMVal_children (chainMem d) 0x106 =
      Except.ok [Entry.s "vars", Entry.v (GdbVal.num 0),
                 Entry.s "env_up",
                 Entry.v (GdbVal.obj "pvm_env_ *" (if 1 ≤ d then 0x200 else 0))] := by
  have h1 : (1 : Nat) ≤ d + 1 := Nat.le_add_left 1 d
  have hread : (chainMem d).readWord (ptrOf 0x106) = some 0xF := by
    simp [chainMem, ptrOf, h1]
  have henv : (chainMem d).readEnv (ptrOf 0x106) =
      some { vars := GdbVal.num 0,
             env_up := GdbVal.obj "pvm_env_ *" (if 1 ≤ d then 0x200 else 0) } := by
    simp [chainMem, ptrOf, h1]
  simp [PVMVal_children, boxChildren, hread, henv, tcNum]

/-- C8 counterexample: no recursion-depth guard exists — for every
candidate depth bound `D` there is an Environment parent chain deeper than
`D` (namely `chainMem (D + 1)`) whose presentation contains no truncated
node whatsoever: the decoder always yields the plain `vars`/`env_up`
entries and never a synthetic truncation entry. -/
theorem C8_counterexample :
    ¬ ∃ D : Nat, ∀ d : Nat, D < d →
        hasSyntheticEntry ["vars", "env_up"]
          (presentEntries (chainMem d) 0x106) = true := by
  rintro ⟨D, hD⟩
  have h := hD (D + 1) (by omega)
  rw [presentEntries, chain_children_eq] at h
  simp [hasSyntheticEntry, isSyntheticEntry] at h

/-- C8 as amended: the code enforces no recursion depth at all — for an
environment parent chain of every depth `d` the decode of the root frame
terminates after yielding exactly the `vars` and `env_up` entries
(recursion into the parent is delegated to the host debugger) and never
returns a truncated node. -/
theorem C8_no_depth_guard_amended (d : Nat) :
    (∃ up : Nat, PVMVal_children (chainMem d) 0x106 =
      Except.ok [Entry.s "vars", Entry.v (GdbVal.num 0),
                 Entry.s "env_up", Entry.v (GdbVal.obj "pvm_env_ *" up)]) ∧
    hasSyntheticEntry ["vars", "env_up"]
      (presentEntries (chainMem d) 0x106) = false := by
  refine ⟨⟨if 1 ≤ d then 0x200 else 0, chain_children_eq d⟩, ?_⟩
  rw [presentEntries, chain_children_eq]
  simp [hasSyntheticEntry, isSyntheticEntry]

/-- Witness for C8: a chain of 71 frames — deeper than the suggested
guard of 64 — still presents with no truncation entry. -/
theorem C8_witness :
    hasSyntheticEntry ["vars", "env_up"]
      (presentEntries (chainMem 70) 0x106) = false :=
  (C8_no_depth_guard_amended 70).2

/-- Immediate signed decode: for a tag-0 word, `children` yields the single
summary built from `ival = v >> 32` and `ibits = ((v >> 3) & 0x1F) + 1`. -/
theorem children_int_eq (mem : Mem) (v : Nat) (h : v % 8 = 0) :
    PVMVal_children mem v =
      Except.ok [Entry.s (toString (immVal v) ++ " as int<" ++
                          toString (immBits v) ++ ">")] := by
  simp [PVMVal_children, h]

/-- C2 counterexample: the claim's concrete word `0x0000000500000000 |
0b000_11000` (= `… | 24`) does NOT decode to bit width 25 — its bits 3..7
hold 3, so the code decodes width 4 (`"5 as int<4>"`); and the signed
round-trip fails for negative payloads: encoding `v = -1` at width 32 and
decoding with `ival = v >> 32` over the unsigned word yields 4294967295,
not `-1`. -/
theorem C2_counterexample :
    immBits (0x0000000500000000 ||| 0b00011000) = 4 ∧ (4 : Nat) ≠ 25 ∧
    (immVal (encodeSignedImm (-1) 32) : Int) = 4294967295 ∧
    ((4294967295 : Int) ≠ -1) := by
  refine ⟨by decide, by decide, by decide, by decide⟩

/-- C2 as amended: for `1 ≤ w ≤ 32` and any `v` representable in `w` signed
bits, the decoded bit width is exactly `w`; the decoded value equals `v`
exactly when `v ≥ 0` (and equals the unsigned 32-bit reading `v + 2^32`
when `v < 0`, so the signed round-trip holds precisely for non-negative
payloads); `children` yields the corresponding `"ival as int<w>"` summary;
and the width-25 instance uses the field value `24` in bits 3..7, i.e. the
word `0x0000000500000000 | 0b11000000`, which decodes to `"5 as int<25>"`. -/
theorem C2_roundtrip_amended (mem : Mem) (v : Int) (w : Nat)
    (hw1 : 1 ≤ w) (hw2 : w ≤ 32)
    (hlo : -((2 : Int) ^ (w - 1)) ≤ v) (hhi : v < 2 ^ (w - 1)) :
    immBits (encodeSignedImm v w) = w ∧
    (0 ≤ v → (immVal (encodeSignedImm v w) : Int) = v) ∧
    (v < 0 → (immVal (encodeSignedImm v w) : Int) = v + 2 ^ 32) ∧
    PVMVal_children mem (encodeSignedImm v w) =
      Except.ok [Entry.s (toString (immVal (encodeSignedImm v w)) ++
                          " as int<" ++ toString w ++ ">")] ∧
    PVMVal_children mem (0x0000000500000000 ||| 0b11000000) =
      Except.ok [Entry.s "5 as int<25>"] := by
  have h31 : (2 : Int) ^ (w - 1) ≤ 2 ^ 31 := by
    apply pow_le_pow_right₀ (by norm_num) (by omega)
  have h31n : ((2 : Int) ^ 31) = 2147483648 := by norm_num
  have h32n : ((2 : Int) ^ 32) = 4294967296 := by norm_num
  have hvlo : -(2147483648 : Int) ≤ v := by
    have := le_trans (neg_le_neg h31) hlo
    omega
  have hvhi : v < (2147483648 : Int) := by
    have := lt_of_lt_of_le hhi h31
    omega
  set p : Nat := (v % (2 : Int) ^ 32).toNat with hpdef
  have hpe : (p : Int) = v % 4294967296 := by
    rw [hpdef, h32n]
    exact Int.toNat_of_nonneg (Int.emod_nonneg v (by norm_num))
  have hplt : p < 4294967296 := by omega
  have hpmod : (p : Int) = if 0 ≤ v then v else v + 4294967296 := by
    rw [hpe]
    split
    · omega
    · omega
  have henc : encodeSignedImm v w = p * 2 ^ 32 + (w - 1) * 8 := rfl
  have hfact : p * 2 ^ 32 = 8 * (p * 2 ^ 29) := by ring
  have hfact29 : p * 2 ^ 29 = 32 * (p * 2 ^ 24) := by ring
  have himmval : immVal (encodeSignedImm v w) = p := by
    show (p * 2 ^ 32 + (w - 1) * 8) >>> 32 = p
    rw [Nat.shiftRight_eq_div_pow]
    have : (2 : Nat) ^ 32 = 4294967296 := by norm_num
    rw [this]
    have : p * 2 ^ 32 = p * 4294967296 := by norm_num
    omega
  have himmbits : immBits (encodeSignedImm v w) = w := by
    show (((p * 2 ^ 32 + (w - 1) * 8) >>> 3) &&& 0x1F) + 1 = w
    have hdiv : (p * 2 ^ 32 + (w - 1) * 8) >>> 3 = p * 2 ^ 29 + (w - 1) := by
      rw [Nat.shiftRight_eq_div_pow]
      have h8 : (2 : Nat) ^ 3 = 8 := by norm_num
      rw [h8]
      omega
    rw [hdiv]
    have hand := Nat.and_pow_two_sub_one_eq_mod (p * 2 ^ 29 + (w - 1)) 5
    have h5 : (2 : Nat) ^ 5 - 1 = 0x1F := by norm_num
    have h5' : (2 : Nat) ^ 5 = 32 := by norm_num
    rw [h5, h5'] at hand
    rw [hand]
    generalize hq : p * 2 ^ 29 = q at hfact29
    omega
  have htag : encodeSignedImm v w % 8 = 0 := by
    show (p * 2 ^ 32 + (w - 1) * 8) % 8 = 0
    omega
  refine ⟨himmbits, ?_, ?_, ?_, rfl⟩
  · intro h0
    rw [himmval, hpmod, if_pos h0]
  · intro hneg
    rw [himmval, hpmod, if_neg (by omega), h32n]
  · rw [children_int_eq mem _ htag, himmbits]

/-- Witness for C2: the amended round-trip at `v = 5, w = 25`. -/
theorem C2_witness :
    ((1 : Nat) ≤ 25 ∧ (25 : Nat) ≤ 32 ∧
     -((2 : Int) ^ (25 - 1)) ≤ 5 ∧ (5 : Int) < 2 ^ (25 - 1)) ∧
    immBits (encodeSignedImm 5 25) = 25 ∧
    (immVal (encodeSignedImm 5 25) : Int) = 5 := by
  refine ⟨⟨by norm_num, by norm_num, by norm_num, by norm_num⟩, ?_, ?_⟩
  · exact (C2_roundtrip_amended memNone 5 25 (by norm_num) (by norm_num)
      (by norm_num) (by norm_num)).1
  · exact (C2_roundtrip_amended memNone 5 25 (by norm_num) (by norm_num)
      (by norm_num) (by norm_num)).2.1 (by norm_num)

end PokePP
